import Mathlib

/-!
Shallow embedding of the GrameenCredit alternative credit scoring engine,
translated from src/server/services/creditScoringService.js and
src/server/models/CreditAnalysis.js.

Modelling conventions:
* JavaScript numbers are modelled as ℚ wherever the source performs only
  field operations, and as ℝ where `Math.sqrt` occurs
  (`calculateBalanceStability`, `calculateRegularityScore`).
* JavaScript exceptions are modelled with `Except JsError`.  Several helper
  functions referenced by creditScoringService.js (`extractMerchant`,
  `isSalaryCredit`, `identifyRecurringPayments`, `categorizeMerchant`,
  `calculateUPIRegularity`, `calculateRechargeConsistency`,
  `calculateFinancialStabilityScore`, `calculateSocialSignalsScore`,
  `getSMSDateRange`, `getUPIDateRange`, `getMobileDateRange`) are never
  defined anywhere in the repository; in JavaScript, evaluating such an
  identifier throws a ReferenceError, so each is embedded as a function
  that returns `Except.error (JsError.referenceError ...)`.
* `Date` objects are modelled by the observations the engine makes of them
  (`toISOString`, `getHours`, `getDay`).
* The mongoose persistence calls (`findOne`, `save`) are outside the engine
  core (spec §1, §6); the engine is embedded as the pure per-invocation
  computation on a fresh analysis record (whose `redFlags` default to `[]`
  per the schema).
-/

namespace GrameenCredit

/-- A JavaScript runtime error, as far as the engine's control flow observes it. -/
inductive JsError where
  | referenceError (name : String)
  | typeError (msg : String)

/-- A JS `Date`, modelled by the observations the engine makes of it:
`toISOString()` (the `iso` field), `getHours()` and `getDay()`. -/
structure JsDate where
  iso : String
  hours : Nat
  day : Nat

/-- One raw SMS entry of `userData.smsData`: the engine reads `sms.message`
and `sms.date`. -/
structure SMSRecord where
  message : String
  date : JsDate

/-- One raw UPI entry of `userData.upiData`: the engine reads `amount`,
`merchant` and `timestamp`. -/
structure UPITransaction where
  amount : ℚ
  merchant : String
  timestamp : JsDate

/-- One raw mobile-usage entry of `userData.mobileData`: the engine reads
`item.type` and, for recharges, `item.amount`. -/
structure MobileRecord where
  type : String
  amount : ℚ

/-- The user profile fields named by the spec (§6): monthly income and
occupation.  The engine only ever passes them to the (undefined)
`calculateFinancialStabilityScore`. -/
structure Profile where
  monthlyIncome : ℚ
  occupation : String

/-- The engine's input payload `userData`.  `Option.none` models an absent
(`undefined`) list; the source guards each list with `userData.xxxData || []`. -/
structure UserData where
  smsData : Option (List SMSRecord)
  upiData : Option (List UPITransaction)
  mobileData : Option (List MobileRecord)
  profile : Profile

/-! ### String parsing helpers (creditScoringService.js lines 289-307)

`parseAmount`, `determineTransactionType` and `extractBalance` are the only
free-text parsers actually defined in the source.  The two regexes
`/Rs\.?\s*(\d+(?:,\d+)*(?:\.\d+)?)/i` and
`/balance.*?Rs\.?\s*(\d+(?:,\d+)*(?:\.\d+)?)/i` are embedded as explicit
character-level leftmost-match scanners. -/

/-- Characters matched by the regex class `\s` (as far as SMS text goes). -/
def isJsWhitespace (c : Char) : Bool :=
  c = ' ' || c = '\t' || c = '\n' || c = '\r'

/-- Numeric value of a decimal digit character. -/
def digitVal (c : Char) : Nat := c.toNat - '0'.toNat

/-- The natural number denoted by a list of decimal digit characters. -/
def digitsToNat (ds : List Char) : Nat :=
  ds.foldl (fun acc c => acc * 10 + digitVal c) 0

/-- The rational denoted by an integer digit run and a fractional digit run
(the result of `parseFloat` on `"<int>.<frac>"` after commas are removed). -/
def ratOfDigits (intDigits fracDigits : List Char) : ℚ :=
  (digitsToNat intDigits : ℚ) + (digitsToNat fracDigits : ℚ) / (10 : ℚ) ^ fracDigits.length

/-- Consume the `(?:,\d+)*` part of the amount regex: repeatedly a comma
followed by at least one digit.  Returns the digits consumed and the rest. -/
def takeCommaGroups : List Char → List Char × List Char
  | ',' :: c :: rest =>
    if c.isDigit then
      let ds := List.takeWhile Char.isDigit (c :: rest)
      let rest2 := List.dropWhile Char.isDigit (c :: rest)
      let p := takeCommaGroups rest2
      (ds ++ p.1, p.2)
    else ([], ',' :: c :: rest)
  | l => ([], l)
termination_by l => l.length
decreasing_by
  have hle := (List.dropWhile_sublist (l := c :: rest) Char.isDigit).length_le
  simp only [List.length_cons] at hle ⊢
  omega

/-- Try to match `\.?\s*(\d+(?:,\d+)*(?:\.\d+)?)` immediately after an
occurrence of `Rs`; on success return the parsed amount (commas removed,
`parseFloat` applied). -/
def matchAmountAfterRs (cs : List Char) : Option ℚ :=
  let cs1 := match cs with
    | '.' :: rest => rest
    | l => l
  let cs2 := cs1.dropWhile isJsWhitespace
  match cs2 with
  | [] => none
  | c :: _ =>
    if c.isDigit then
      let intPart := cs2.takeWhile Char.isDigit
      let afterInt := cs2.dropWhile Char.isDigit
      let g := takeCommaGroups afterInt
      let fracDigits : List Char :=
        match g.2 with
        | '.' :: d :: _ => if d.isDigit then (g.2.drop 1).takeWhile Char.isDigit else []
        | _ => []
      some (ratOfDigits (intPart ++ g.1) fracDigits)
    else none

/-- Leftmost match of the case-insensitive `Rs\.?\s*(amount)` pattern, as the
JS regex engine finds it: try every start position left to right. -/
def findRsAmount : List Char → Option ℚ
  | [] => none
  | c :: rest =>
    if c = 'R' || c = 'r' then
      match rest with
      | s :: rest2 =>
        if s = 'S' || s = 's' then
          match matchAmountAfterRs rest2 with
          | some q => some q
          | none => findRsAmount rest
        else findRsAmount rest
      | [] => none
    else findRsAmount rest

/-- creditScoringService.js lines 290-293: first `Rs.` amount in the message,
or 0 when the regex does not match. -/
def parseAmount (message : String) : ℚ :=
  (findRsAmount message.toList).getD 0

/-- Whether the lowercased message contains `sub` (JS `includes`). -/
def jsIncludes (message : String) (sub : String) : Bool :=
  decide (sub.toList <:+: message.toList.map Char.toLower)

/-- creditScoringService.js lines 295-302: classify a message as a credit,
debit or unknown transaction from its verb cues. -/
def determineTransactionType (message : String) : String :=
  if jsIncludes message "credited" || jsIncludes message "received" then "credit"
  else if jsIncludes message "debited" || jsIncludes message "paid" then "debit"
  else "unknown"

/-- Scan forward (within the current line, since `.` does not match a line
break) for an `Rs` amount; used for the `.*?Rs\.?\s*(...)` tail of the
balance regex. -/
def searchRsOnLine : List Char → Option ℚ
  | [] => none
  | c :: rest =>
    if c = '\n' || c = '\r' then none
    else if c = 'R' || c = 'r' then
      match rest with
      | s :: rest2 =>
        if s = 'S' || s = 's' then
          match matchAmountAfterRs rest2 with
          | some q => some q
          | none => searchRsOnLine rest
        else searchRsOnLine rest
      | [] => none
    else searchRsOnLine rest

/-- Case-insensitive prefix test against a lowercase pattern. -/
def matchesCI : List Char → List Char → Bool
  | _, [] => true
  | [], _ :: _ => false
  | c :: cs, p :: ps => c.toLower = p && matchesCI cs ps

/-- Leftmost match of `balance.*?Rs\.?\s*(amount)` (case-insensitive):
at each position where `balance` occurs, look for the earliest following
`Rs` amount on the same line; otherwise resume scanning. -/
def findBalance : List Char → Option ℚ
  | [] => none
  | c :: rest =>
    if matchesCI (c :: rest) "balance".toList then
      match searchRsOnLine ((c :: rest).drop 7) with
      | some q => some q
      | none => findBalance rest
    else findBalance rest

/-- creditScoringService.js lines 304-307: balance figure quoted after the
word `balance`, if any. -/
def extractBalance (message : String) : Option ℚ :=
  findBalance message.toList

/-! ### Source summaries (shapes from models/CreditAnalysis.js) -/

/-- A detected salary credit (CreditAnalysis.js schema lines 46-50). -/
structure SalaryCredit where
  amount : ℚ
  date : JsDate
  source : String

/-- A detected recurring payment (CreditAnalysis.js schema lines 51-56). -/
structure RecurringPayment where
  merchant : String
  amount : ℚ
  frequency : String
  lastPayment : JsDate

/-- One merchant-category bucket of the UPI summary
(CreditAnalysis.js schema lines 85-89). -/
structure MerchantCategory where
  category : String
  transactionCount : Nat
  totalAmount : ℚ

/-- The SMS source summary (creditScoringService.js lines 66-76).
`balanceStability` and `regularityScore` are ℝ because their computation
involves `Math.sqrt`. -/
structure SMSAnalysis where
  totalTransactions : Nat
  creditTransactions : Nat
  debitTransactions : Nat
  averageBalance : ℝ
  balanceStability : ℝ
  regularityScore : ℝ
  merchantDiversity : ℚ
  salaryCredits : List SalaryCredit
  recurringPayments : List RecurringPayment

/-- The UPI source summary (creditScoringService.js lines 145-154). -/
structure UPIAnalysis where
  monthlyTransactionCount : ℤ
  averageTransactionAmount : ℚ
  totalVolume : ℚ
  paymentRegularity : ℝ
  digitalFootprintScore : ℚ
  merchantCategories : List MerchantCategory
  peakTransactionHours : List Nat
  weekdayVsWeekendRatio : ℚ

/-- The mobile-usage summary (creditScoringService.js lines 224-230). -/
structure MobileAnalysis where
  rechargeFrequency : Nat
  averageRechargeAmount : ℚ
  planType : String
  dataUsagePattern : String
  consistencyScore : ℝ

/-- creditScoringService.js lines 331-341: the default SMS summary. -/
def getDefaultSMSAnalysis : SMSAnalysis where
  totalTransactions := 0
  creditTransactions := 0
  debitTransactions := 0
  averageBalance := 0
  balanceStability := 30
  regularityScore := 30
  merchantDiversity := 20
  salaryCredits := []
  recurringPayments := []

/-- creditScoringService.js lines 343-352: the default UPI summary. -/
def getDefaultUPIAnalysis : UPIAnalysis where
  monthlyTransactionCount := 0
  averageTransactionAmount := 0
  totalVolume := 0
  paymentRegularity := 30
  digitalFootprintScore := 20
  merchantCategories := []
  peakTransactionHours := []
  weekdayVsWeekendRatio := 0

/-- creditScoringService.js lines 354-360: the default mobile summary. -/
def getDefaultMobileAnalysis : MobileAnalysis where
  rechargeFrequency := 0
  averageRechargeAmount := 0
  planType := "unknown"
  dataUsagePattern := "low"
  consistencyScore := 30

/-! ### Identifiers referenced by creditScoringService.js but defined nowhere
in the repository.  Evaluating any of them in JavaScript throws
`ReferenceError: <name> is not defined`; each is embedded as the
corresponding `Except.error`. -/

/-- Called at creditScoringService.js line 87; not defined anywhere. -/
def extractMerchant (_message : String) : Except JsError String :=
  .error (.referenceError "extractMerchant is not defined")

/-- Called at creditScoringService.js line 93; not defined anywhere. -/
def isSalaryCredit (_message : String) (_amount : ℚ) : Except JsError Bool :=
  .error (.referenceError "isSalaryCredit is not defined")

/-- Called at creditScoringService.js line 128; not defined anywhere. -/
def identifyRecurringPayments (_smsData : List SMSRecord) :
    Except JsError (List RecurringPayment) :=
  .error (.referenceError "identifyRecurringPayments is not defined")

/-- Called at creditScoringService.js line 167; not defined anywhere. -/
def categorizeMerchant (_merchant : String) : Except JsError String :=
  .error (.referenceError "categorizeMerchant is not defined")

/-- Called at creditScoringService.js line 190; not defined anywhere. -/
def calculateUPIRegularity (_upiData : List UPITransaction) : Except JsError ℝ :=
  .error (.referenceError "calculateUPIRegularity is not defined")

/-- Called at creditScoringService.js line 247; not defined anywhere. -/
def calculateRechargeConsistency (_recharges : List MobileRecord) : Except JsError ℝ :=
  .error (.referenceError "calculateRechargeConsistency is not defined")

/-- Called at creditScoringService.js line 277; not defined anywhere. -/
def calculateFinancialStabilityScore (_sms : SMSAnalysis) (_userData : UserData) :
    Except JsError ℚ :=
  .error (.referenceError "calculateFinancialStabilityScore is not defined")

/-- Called at creditScoringService.js line 282; not defined anywhere. -/
def calculateSocialSignalsScore (_upi : UPIAnalysis) (_mobile : MobileAnalysis) :
    Except JsError ℚ :=
  .error (.referenceError "calculateSocialSignalsScore is not defined")

/-- The `{start, end}` date range of a data source
(CreditAnalysis.js schema lines 178-181; `end` renamed `endDate`). -/
structure DateRange where
  start : JsDate
  endDate : JsDate

/-- Called at creditScoringService.js line 44; not defined anywhere. -/
def getSMSDateRange (_smsData : Option (List SMSRecord)) : Except JsError DateRange :=
  .error (.referenceError "getSMSDateRange is not defined")

/-- Called at creditScoringService.js line 45; not defined anywhere. -/
def getUPIDateRange (_upiData : Option (List UPITransaction)) : Except JsError DateRange :=
  .error (.referenceError "getUPIDateRange is not defined")

/-- Called at creditScoringService.js line 46; not defined anywhere. -/
def getMobileDateRange (_mobileData : Option (List MobileRecord)) : Except JsError DateRange :=
  .error (.referenceError "getMobileDateRange is not defined")

/-! ### Metric helpers (creditScoringService.js lines 309-328) -/

/-- creditScoringService.js lines 309-317: balance stability from the list of
observed balances.  `Math.sqrt` forces the ℝ model. -/
noncomputable def calculateBalanceStability (balances : List ℝ) : ℝ :=
  if balances.length < 2 then 50
  else
    let mean := balances.sum / (balances.length : ℝ)
    let variance := (balances.map (fun balance => (balance - mean) ^ 2)).sum / (balances.length : ℝ)
    let coefficient := Real.sqrt variance / mean
    max 0 (min 100 (100 - coefficient * 100))

/-- creditScoringService.js lines 319-328: regularity of the per-month
transaction counts. -/
noncomputable def calculateRegularityScore (monthlyTransactions : List (String × Nat)) : ℝ :=
  if monthlyTransactions.length < 2 then 30
  else
    let counts := monthlyTransactions.map (fun p => (p.2 : ℝ))
    let mean := counts.sum / (counts.length : ℝ)
    let variance := (counts.map (fun count => (count - mean) ^ 2)).sum / (counts.length : ℝ)
    max 0 (min 100 (100 - Real.sqrt variance / mean * 50))

/-! ### SMS analysis (creditScoringService.js lines 60-136) -/

/-- The mutable locals of `analyzeSMSTransactions` while the `for` loop runs:
the counters of the `analysis` object under construction plus
`totalBalance`, `balances`, `merchants` and `monthlyTransactions`. -/
structure SMSFold where
  creditTransactions : Nat
  debitTransactions : Nat
  salaryCredits : List SalaryCredit
  totalBalance : ℝ
  balances : List ℝ
  merchants : List String
  monthlyTransactions : List (String × Nat)

/-- `Set.add`: JS `merchants.add(merchant)` on an insertion-ordered set. -/
def addToSet (s : List String) (x : String) : List String :=
  if x ∈ s then s else s ++ [x]

/-- `monthlyTransactions[month] = (monthlyTransactions[month] || 0) + 1`
on an insertion-ordered string-keyed object. -/
def bumpMonth (m : List (String × Nat)) (month : String) : List (String × Nat) :=
  if m.any (fun p => p.1 == month) then
    m.map (fun p => if p.1 == month then (p.1, p.2 + 1) else p)
  else m ++ [(month, 1)]

/-- One iteration of the SMS `for` loop (creditScoringService.js lines 84-119).
The call to the undefined `extractMerchant` at line 87 raises, so everything
after it is dead code (kept for fidelity to the source). -/
def smsLoopIter (st : SMSFold) (sms : SMSRecord) : Except JsError SMSFold := do
  let amount := parseAmount sms.message
  let ty := determineTransactionType sms.message
  let merchant ← extractMerchant sms.message
  let st ←
    if ty = "credit" then do
      let st := { st with creditTransactions := st.creditTransactions + 1 }
      let isSal ← isSalaryCredit sms.message amount
      pure (if isSal then
        { st with salaryCredits :=
            st.salaryCredits ++ [{ amount := amount, date := sms.date, source := merchant }] }
      else st)
    else
      pure (if ty = "debit" then { st with debitTransactions := st.debitTransactions + 1 } else st)
  let st :=
    match extractBalance sms.message with
    | some balance =>
      { st with balances := st.balances ++ [(balance : ℝ)],
                totalBalance := st.totalBalance + (balance : ℝ) }
    | none => st
  let st := if merchant ≠ "" then { st with merchants := addToSet st.merchants merchant } else st
  let month := sms.date.iso.take 7
  pure { st with monthlyTransactions := bumpMonth st.monthlyTransactions month }

/-- The `try` block of `analyzeSMSTransactions`
(creditScoringService.js lines 61-130). -/
noncomputable def analyzeSMSBody (smsData : List SMSRecord) : Except JsError SMSAnalysis := do
  if smsData.length = 0 then
    return getDefaultSMSAnalysis
  let st ← smsData.foldlM smsLoopIter ⟨0, 0, [], 0, [], [], []⟩
  let recurringPayments ← identifyRecurringPayments smsData
  return {
    totalTransactions := smsData.length
    creditTransactions := st.creditTransactions
    debitTransactions := st.debitTransactions
    averageBalance :=
      if 0 < st.balances.length then st.totalBalance / (st.balances.length : ℝ) else 0
    balanceStability := calculateBalanceStability st.balances
    regularityScore := calculateRegularityScore st.monthlyTransactions
    merchantDiversity := ((min (st.merchants.length * 10) 100 : Nat) : ℚ)
    salaryCredits := st.salaryCredits
    recurringPayments := recurringPayments }

/-- creditScoringService.js lines 60-136: the SMS analyzer; any error in the
body is caught and replaced by the default summary. -/
noncomputable def analyzeSMSTransactions (smsData : List SMSRecord) : SMSAnalysis :=
  match analyzeSMSBody smsData with
  | .ok analysis => analysis
  | .error _ => getDefaultSMSAnalysis

/-! ### UPI analysis (creditScoringService.js lines 139-215) -/

/-- The mutable locals of `analyzeUPITransactions` during its loop. -/
structure UPIFold where
  totalAmount : ℚ
  categories : List (String × Nat × ℚ)
  hourCounts : List Nat
  weekdayCount : Nat
  weekendCount : Nat

/-- `categories[category]` creation/update (creditScoringService.js
lines 167-172) on an insertion-ordered object. -/
def bumpCategory (cats : List (String × Nat × ℚ)) (category : String) (amount : ℚ) :
    List (String × Nat × ℚ) :=
  if cats.any (fun c => c.1 == category) then
    cats.map (fun c => if c.1 == category then (c.1, c.2.1 + 1, c.2.2 + amount) else c)
  else cats ++ [(category, 1, amount)]

/-- One iteration of the UPI loop (creditScoringService.js lines 163-184).
The call to the undefined `categorizeMerchant` at line 167 raises; the rest
is dead code kept for fidelity. -/
def upiLoopIter (st : UPIFold) (t : UPITransaction) : Except JsError UPIFold := do
  let st := { st with totalAmount := st.totalAmount + t.amount }
  let category ← categorizeMerchant t.merchant
  let st := { st with categories := bumpCategory st.categories category t.amount }
  let hour := t.timestamp.hours
  let st := { st with hourCounts := st.hourCounts.set hour (st.hourCounts.getD hour 0 + 1) }
  let dayOfWeek := t.timestamp.day
  pure (if dayOfWeek = 0 || dayOfWeek = 6 then
    { st with weekendCount := st.weekendCount + 1 }
  else
    { st with weekdayCount := st.weekdayCount + 1 })

/-- JS `Math.round`: round half toward positive infinity, on the ℚ model. -/
def jsRound (q : ℚ) : ℤ := ⌊q + 1 / 2⌋

/-- JS `Math.round` on the ℝ model (used where `Math.sqrt` results flow in). -/
noncomputable def jsRoundR (x : ℝ) : ℤ := ⌊x + 1 / 2⌋

/-- creditScoringService.js lines 201-205: hours sorted by descending count
(stable, as JS `Array.prototype.sort`), top three. -/
def topThreeHours (hourCounts : List Nat) : List Nat :=
  (((hourCounts.enum).mergeSort (fun a b => decide (b.2 ≤ a.2))).take 3).map (fun p => p.1)

/-- The `try` block of `analyzeUPITransactions`
(creditScoringService.js lines 140-209). -/
def analyzeUPIBody (upiData : List UPITransaction) : Except JsError UPIAnalysis := do
  if upiData.length = 0 then
    return getDefaultUPIAnalysis
  let st ← upiData.foldlM upiLoopIter ⟨0, [], List.replicate 24 0, 0, 0⟩
  let paymentRegularity ← calculateUPIRegularity upiData
  return {
    monthlyTransactionCount := jsRound ((upiData.length : ℚ) / 3)
    averageTransactionAmount := st.totalAmount / (upiData.length : ℚ)
    totalVolume := st.totalAmount
    paymentRegularity := paymentRegularity
    digitalFootprintScore := ((min (upiData.length * 2) 100 : Nat) : ℚ)
    merchantCategories := st.categories.map (fun c =>
      { category := c.1, transactionCount := c.2.1, totalAmount := c.2.2 })
    peakTransactionHours := topThreeHours st.hourCounts
    weekdayVsWeekendRatio :=
      if 0 < st.weekdayCount then (st.weekendCount : ℚ) / (st.weekdayCount : ℚ) else 0 }

/-- creditScoringService.js lines 139-215: the UPI analyzer; any error in the
body is caught and replaced by the default summary. -/
def analyzeUPITransactions (upiData : List UPITransaction) : UPIAnalysis :=
  match analyzeUPIBody upiData with
  | .ok analysis => analysis
  | .error _ => getDefaultUPIAnalysis

/-! ### Mobile usage analysis (creditScoringService.js lines 218-256) -/

/-- The `try` block of `analyzeMobileUsage`
(creditScoringService.js lines 219-250). -/
def analyzeMobileBody (mobileData : List MobileRecord) : Except JsError MobileAnalysis := do
  if mobileData.length = 0 then
    return getDefaultMobileAnalysis
  let analysis : MobileAnalysis :=
    { rechargeFrequency := 0, averageRechargeAmount := 0, planType := "unknown",
      dataUsagePattern := "medium", consistencyScore := 0 }
  let recharges := mobileData.filter (fun item => item.type == "recharge")
  if 0 < recharges.length then
    let totalAmount := (recharges.map (fun r => r.amount)).sum
    let analysis := { analysis with
      averageRechargeAmount := totalAmount / (recharges.length : ℚ),
      rechargeFrequency := recharges.length }
    let analysis :=
      if (500 : ℚ) < analysis.averageRechargeAmount then { analysis with planType := "postpaid" }
      else if analysis.averageRechargeAmount < (100 : ℚ) then { analysis with planType := "prepaid" }
      else analysis
    let consistencyScore ← calculateRechargeConsistency recharges
    pure { analysis with consistencyScore := consistencyScore }
  else
    pure analysis

/-- creditScoringService.js lines 218-256: the mobile analyzer; any error in
the body is caught and replaced by the default summary. -/
def analyzeMobileUsage (mobileData : List MobileRecord) : MobileAnalysis :=
  match analyzeMobileBody mobileData with
  | .ok analysis => analysis
  | .error _ => getDefaultMobileAnalysis

/-! ### Score components and aggregation -/

/-- One weighted component score
(CreditAnalysis.js schema lines 123-149). -/
structure ComponentScore where
  score : ℚ
  weight : ℚ
  factors : List String

/-- The five fixed components (CreditAnalysis.js schema lines 123-149),
in the insertion order of creditScoringService.js lines 260-286. -/
structure ScoreComponents where
  transactionBehavior : ComponentScore
  paymentRegularity : ComponentScore
  digitalEngagement : ComponentScore
  financialStability : ComponentScore
  socialSignals : ComponentScore

/-- creditScoringService.js lines 259-287: builds the five components.  The
first three property values are computed, then the call to the undefined
`calculateFinancialStabilityScore` (line 277) raises, so the object is never
completed and the error escapes `calculateScoreComponents` (there is no
try/catch in this function). -/
noncomputable def calculateScoreComponents (smsAnalysis : SMSAnalysis)
    (upiAnalysis : UPIAnalysis) (mobileAnalysis : MobileAnalysis) (userData : UserData) :
    Except JsError ScoreComponents := do
  let transactionBehavior : ComponentScore :=
    { score := (jsRoundR ((smsAnalysis.regularityScore + upiAnalysis.paymentRegularity) / 2) : ℚ),
      weight := 0.25, factors := ["SMS regularity", "UPI payment patterns"] }
  let paymentRegularity : ComponentScore :=
    { score := (jsRoundR ((smsAnalysis.balanceStability + mobileAnalysis.consistencyScore) / 2) : ℚ),
      weight := 0.20, factors := ["Balance stability", "Recharge consistency"] }
  let digitalEngagement : ComponentScore :=
    { score := (jsRound ((upiAnalysis.digitalFootprintScore + smsAnalysis.merchantDiversity) / 2) : ℚ),
      weight := 0.20, factors := ["UPI usage", "Merchant diversity"] }
  let financialStabilityScore ← calculateFinancialStabilityScore smsAnalysis userData
  let socialSignalsScore ← calculateSocialSignalsScore upiAnalysis mobileAnalysis
  pure {
    transactionBehavior := transactionBehavior
    paymentRegularity := paymentRegularity
    digitalEngagement := digitalEngagement
    financialStability :=
      { score := financialStabilityScore, weight := 0.25,
        factors := ["Average balance", "Income regularity"] }
    socialSignals :=
      { score := socialSignalsScore, weight := 0.10,
        factors := ["Transaction timing", "Usage patterns"] } }

/-- The five components in the iteration order of
`Object.keys(components).forEach` (insertion order). -/
def componentList (c : ScoreComponents) : List ComponentScore :=
  [c.transactionBehavior, c.paymentRegularity, c.digitalEngagement,
   c.financialStability, c.socialSignals]

/-- CreditAnalysis.js lines 245-265 (`calculateCreditScore` method): weighted
aggregation over the components whose `score` and `weight` are both truthy
(JS `component.score && component.weight`, i.e. both nonzero), scaled to the
300-900 band; 300 when the accumulated weight is zero. -/
def calculateCreditScore (c : ScoreComponents) : ℤ :=
  let included := (componentList c).filter (fun k => decide (k.score ≠ 0 ∧ k.weight ≠ 0))
  let weightedScore := (included.map (fun k => k.score * k.weight)).sum
  let totalWeight := (included.map (fun k => k.weight)).sum
  if totalWeight = 0 then 300
  else jsRound (300 + weightedScore / totalWeight * 6)

/-- CreditAnalysis.js lines 268-280 (`determineRiskCategory` method). -/
def determineRiskCategory (score : ℤ) : String :=
  if 750 ≤ score then "low"
  else if 600 ≤ score then "medium"
  else "high"

/-- A red flag (CreditAnalysis.js schema lines 189-197). -/
structure RedFlag where
  type : String
  severity : String
  description : String
  impact : ℚ

/-- A positive indicator (CreditAnalysis.js schema lines 198-206). -/
structure PositiveIndicator where
  type : String
  strength : String
  description : String
  impact : ℚ

/-- The loan recommendation (CreditAnalysis.js schema lines 209-233). -/
structure LoanRecommendation where
  eligible : Bool
  maxLoanAmount : ℚ
  recommendedAmount : ℚ
  suggestedInterestRate : ℚ
  maxTenure : ℚ
  conditions : List String

/-- CreditAnalysis.js lines 283-332 (`generateLoanRecommendation` method),
as a function of the fields it reads: `this.alternativeCreditScore`,
`this.riskCategory` and `this.redFlags`. -/
def generateLoanRecommendation (score : ℤ) (risk : String) (redFlags : List RedFlag) :
    LoanRecommendation :=
  let recommendation : LoanRecommendation :=
    { eligible := false, maxLoanAmount := 0, recommendedAmount := 0,
      suggestedInterestRate := 24.0, maxTenure := 6, conditions := [] }
  if 600 ≤ score then
    let recommendation := { recommendation with eligible := true }
    let recommendation :=
      if 750 ≤ score then
        { recommendation with maxLoanAmount := 100000, recommendedAmount := 50000,
                              suggestedInterestRate := 12.0, maxTenure := 24 }
      else if 650 ≤ score then
        { recommendation with maxLoanAmount := 50000, recommendedAmount := 25000,
                              suggestedInterestRate := 15.0, maxTenure := 18 }
      else
        { recommendation with maxLoanAmount := 25000, recommendedAmount := 15000,
                              suggestedInterestRate := 18.0, maxTenure := 12 }
    let recommendation :=
      if 0 < redFlags.length then
        { recommendation with conditions :=
            recommendation.conditions ++ ["Additional verification required"] }
      else recommendation
    if risk = "medium" then
      { recommendation with conditions :=
          recommendation.conditions ++ ["Regular monitoring of repayment"] }
    else recommendation
  else
    { recommendation with conditions :=
        recommendation.conditions ++
          ["Credit score too low for loan approval", "Consider building credit history"] }

/-- creditScoringService.js lines 363-385: red flags from the summaries. -/
noncomputable def identifyRedFlags (smsAnalysis : SMSAnalysis) (upiAnalysis : UPIAnalysis)
    (_mobileAnalysis : MobileAnalysis) : List RedFlag :=
  let flags : List RedFlag := []
  let flags :=
    if smsAnalysis.balanceStability < 30 then
      flags ++ [{ type := "low_balance_stability", severity := "high",
                  description := "Highly volatile account balance", impact := -20 }]
    else flags
  if upiAnalysis.digitalFootprintScore < 20 then
    flags ++ [{ type := "low_digital_usage", severity := "medium",
                description := "Limited digital payment activity", impact := -10 }]
  else flags

/-- creditScoringService.js lines 387-409: positive indicators. -/
def identifyPositiveIndicators (smsAnalysis : SMSAnalysis) (upiAnalysis : UPIAnalysis)
    (_mobileAnalysis : MobileAnalysis) : List PositiveIndicator :=
  let indicators : List PositiveIndicator := []
  let indicators :=
    if 0 < smsAnalysis.salaryCredits.length then
      indicators ++ [{ type := "regular_salary", strength := "high",
                       description := "Regular salary credits detected", impact := 25 }]
    else indicators
  if 70 < upiAnalysis.digitalFootprintScore then
    indicators ++ [{ type := "high_digital_engagement", strength := "medium",
                     description := "Strong digital payment adoption", impact := 15 }]
  else indicators

/-- creditScoringService.js lines 411-419: data-sufficiency confidence. -/
def calculateConfidenceLevel (smsAnalysis : SMSAnalysis) (upiAnalysis : UPIAnalysis)
    (mobileAnalysis : MobileAnalysis) : ℚ :=
  let confidence : ℚ := 0.3
  let confidence := if 50 < smsAnalysis.totalTransactions then confidence + 0.2 else confidence
  let confidence :=
    if 10 < upiAnalysis.monthlyTransactionCount then confidence + 0.2 else confidence
  let confidence := if 5 < mobileAnalysis.rechargeFrequency then confidence + 0.1 else confidence
  min confidence 1.0

/-- One entry of `dataSourcesUsed`
(creditScoringService.js lines 43-47, schema lines 175-182). -/
structure DataSource where
  source : String
  dataPoints : Nat
  dateRange : DateRange

/-- The assembled analysis record, as far as the engine fills it
(models/CreditAnalysis.js schema; persistence metadata is out of scope). -/
structure CreditAnalysis where
  smsAnalysis : SMSAnalysis
  upiAnalysis : UPIAnalysis
  mobileUsage : MobileAnalysis
  creditScoreComponents : ScoreComponents
  alternativeCreditScore : ℤ
  riskCategory : String
  loanRecommendation : LoanRecommendation
  redFlags : List RedFlag
  positiveIndicators : List PositiveIndicator
  confidenceLevel : ℚ
  dataSourcesUsed : List DataSource

/-- creditScoringService.js lines 5-57: the engine's public entry point, as the
pure per-invocation computation on a fresh analysis record (the mongoose
`findOne`/`save` persistence is out of scope per spec §1/§6; a fresh record
has `redFlags = []` when `generateLoanRecommendation` reads it at line 32).
The outer `catch` (lines 53-56) replaces any internal error with
`Error('Failed to calculate credit score')`, which it rethrows: the caller
sees `Except.error`. -/
noncomputable def calculateAlternativeCreditScore (userData : UserData) :
    Except String CreditAnalysis :=
  match (do
    let smsAnalysis := analyzeSMSTransactions (userData.smsData.getD [])
    let upiAnalysis := analyzeUPITransactions (userData.upiData.getD [])
    let mobileAnalysis := analyzeMobileUsage (userData.mobileData.getD [])
    let components ← calculateScoreComponents smsAnalysis upiAnalysis mobileAnalysis userData
    let finalScore := calculateCreditScore components
    let riskCategory := determineRiskCategory finalScore
    let loanRecommendation := generateLoanRecommendation finalScore riskCategory []
    let redFlags := identifyRedFlags smsAnalysis upiAnalysis mobileAnalysis
    let positiveIndicators := identifyPositiveIndicators smsAnalysis upiAnalysis mobileAnalysis
    let confidenceLevel := calculateConfidenceLevel smsAnalysis upiAnalysis mobileAnalysis
    let smsRange ← getSMSDateRange userData.smsData
    let upiRange ← getUPIDateRange userData.upiData
    let mobileRange ← getMobileDateRange userData.mobileData
    pure {
      smsAnalysis := smsAnalysis
      upiAnalysis := upiAnalysis
      mobileUsage := mobileAnalysis
      creditScoreComponents := components
      alternativeCreditScore := finalScore
      riskCategory := riskCategory
      loanRecommendation := loanRecommendation
      redFlags := redFlags
      positiveIndicators := positiveIndicators
      confidenceLevel := confidenceLevel
      dataSourcesUsed :=
        [{ source := "SMS", dataPoints := (userData.smsData.map List.length).getD 0,
           dateRange := smsRange },
         { source := "UPI", dataPoints := (userData.upiData.map List.length).getD 0,
           dateRange := upiRange },
         { source := "Mobile", dataPoints := (userData.mobileData.map List.length).getD 0,
           dateRange := mobileRange }] }
    : Except JsError CreditAnalysis) with
  | .ok analysis => .ok analysis
  | .error _ => .error "Failed to calculate credit score"

/-! ### Spec-side definitions and concrete fixtures -/

/-- The aggregation exactly as the spec and claim C4 word it (§4.4):
`round(300 + 6·(Σ scoreᵢ·weightᵢ / Σ weightᵢ))` with the sums ranging over
ALL five components, clamped to [300, 900], and 300 when all weights are
zero.  Written from the spec's words, to be compared with the source's
`calculateCreditScore`. -/
def specAggregateScore (c : ScoreComponents) : ℤ :=
  let weightedScore := ((componentList c).map (fun k => k.score * k.weight)).sum
  let totalWeight := ((componentList c).map (fun k => k.weight)).sum
  if totalWeight = 0 then 300
  else max 300 (min 900 (jsRound (300 + 6 * (weightedScore / totalWeight))))

/-- The five components with the fixed weights and factor lists of
creditScoringService.js lines 259-287 and the given scores. -/
def mkFixedComponents (s1 s2 s3 s4 s5 : ℚ) : ScoreComponents where
  transactionBehavior :=
    { score := s1, weight := 0.25, factors := ["SMS regularity", "UPI payment patterns"] }
  paymentRegularity :=
    { score := s2, weight := 0.20, factors := ["Balance stability", "Recharge consistency"] }
  digitalEngagement :=
    { score := s3, weight := 0.20, factors := ["UPI usage", "Merchant diversity"] }
  financialStability :=
    { score := s4, weight := 0.25, factors := ["Average balance", "Income regularity"] }
  socialSignals :=
    { score := s5, weight := 0.10, factors := ["Transaction timing", "Usage patterns"] }

/-- Mean of a list of reals, as the spec's `mean(balances)`. -/
noncomputable def listMean (l : List ℝ) : ℝ := l.sum / (l.length : ℝ)

/-- Population standard deviation of a list of reals, as the spec's
`stdDev(balances)` (same divisor as the source's variance). -/
noncomputable def listStdDev (l : List ℝ) : ℝ :=
  Real.sqrt ((l.map (fun x => (x - listMean l) ^ 2)).sum / (l.length : ℝ))

/-- The balance-stability formula exactly as the spec and claim C10 word it:
`100·(1 − min(1, stdDev(balances)/mean(balances)))`. -/
noncomputable def specBalanceStability (l : List ℝ) : ℝ :=
  100 * (1 - min 1 (listStdDev l / listMean l))

/-- The spec's empty-input payload (§8); the spec field names
`smsRecords`/`upiRecords`/`rechargeRecords` correspond to the source's
`smsData`/`upiData`/`mobileData`. -/
def emptyPayload : UserData where
  smsData := some []
  upiData := some []
  mobileData := some []
  profile := { monthlyIncome := 0, occupation := "other" }

/-- A well-formed SMS banking notification used as a concrete record. -/
def sampleSMSRecord : SMSRecord where
  message := "Rs. 5000 credited to your account. Available balance Rs. 12000"
  date := { iso := "2024-01-15T10:00:00.000Z", hours := 10, day := 1 }

/-- A payload holding `n` copies of the sample SMS record, with fixed (empty)
UPI and mobile data and a fixed profile. -/
def smsOnlyPayload (n : Nat) : UserData where
  smsData := some (List.replicate n sampleSMSRecord)
  upiData := some []
  mobileData := some []
  profile := { monthlyIncome := 15000, occupation := "farmer" }

/-- A concrete red flag (the volatile-balance flag the source can emit). -/
def sampleRedFlag : RedFlag where
  type := "low_balance_stability"
  severity := "high"
  description := "Highly volatile account balance"
  impact := -20

/-! ## Claim theorems -/

/-- C1: refuted as stated — code bug.  For EVERY well-typed input payload (in
particular every malformed-but-well-typed one, and even fully well-formed
ones) the public entry point does not complete with a result: the call to the
undefined `calculateFinancialStabilityScore` inside `calculateScoreComponents`
raises a ReferenceError that the outer catch rethrows as
`Failed to calculate credit score`. -/
theorem calculateAlternativeCreditScore_always_fails (userData : UserData) :
    calculateAlternativeCreditScore userData = .error "Failed to calculate credit score" := rfl

/-- C2: code bug.  On the spec's empty-input payload the engine does not
return `finalScore = 300`, `riskTier = "high"`, `eligible = false`: it fails
with `Failed to calculate credit score` because the component scorer calls an
undefined helper. -/
theorem engine_fails_on_empty_payload :
    calculateAlternativeCreditScore emptyPayload = .error "Failed to calculate credit score" := rfl

/-- C3: for every (in particular every non-empty) list of SMS records,
`analyzeSMSTransactions` returns exactly its empty-input default summary
(totalTransactions 0, balanceStability 30, regularityScore 30,
merchantDiversity 20, empty salaryCredits and recurringPayments), and for
every list of UPI records `analyzeUPITransactions` returns its default
summary: the first loop iteration calls an undefined helper
(`extractMerchant` resp. `categorizeMerchant`), raises, and the catch branch
returns the default. -/
theorem analyzers_always_return_defaults (smsData : List SMSRecord)
    (upiData : List UPITransaction) :
    analyzeSMSTransactions smsData = getDefaultSMSAnalysis ∧
    analyzeUPITransactions upiData = getDefaultUPIAnalysis ∧
    getDefaultSMSAnalysis.totalTransactions = 0 ∧
    getDefaultSMSAnalysis.balanceStability = 30 ∧
    getDefaultSMSAnalysis.regularityScore = 30 ∧
    getDefaultSMSAnalysis.merchantDiversity = 20 ∧
    getDefaultSMSAnalysis.salaryCredits = [] ∧
    getDefaultSMSAnalysis.recurringPayments = [] := by
  refine ⟨?_, ?_, rfl, rfl, rfl, rfl, rfl, rfl⟩
  · cases smsData with
    | nil => rfl
    | cons r l => rfl
  · cases upiData with
    | nil => rfl
    | cons t l => rfl

/-- C5: the risk classifier maps a final score to `low` iff it is at least
750, to `medium` iff it lies in [600, 749], and to `high` iff it is below
600; it is a pure total function of the score with no boundary overlap. -/
theorem determineRiskCategory_thresholds (score : ℤ) :
    (determineRiskCategory score = "low" ↔ 750 ≤ score) ∧
    (determineRiskCategory score = "medium" ↔ 600 ≤ score ∧ score ≤ 749) ∧
    (determineRiskCategory score = "high" ↔ score < 600) := by
  unfold determineRiskCategory
  split_ifs with h1 h2 <;> refine ⟨?_, ?_, ?_⟩ <;> simp <;> omega

/-- C8: the confidence estimate is a base 0.3, plus 0.2 when the SMS summary
counts more than 50 transactions, plus 0.2 when the UPI monthly transaction
count exceeds 10, plus 0.1 when the recharge frequency exceeds 5, capped at
1.0. -/
theorem calculateConfidenceLevel_formula (smsAnalysis : SMSAnalysis)
    (upiAnalysis : UPIAnalysis) (mobileAnalysis : MobileAnalysis) :
    calculateConfidenceLevel smsAnalysis upiAnalysis mobileAnalysis =
      min (0.3 + (if 50 < smsAnalysis.totalTransactions then 0.2 else 0)
            + (if 10 < upiAnalysis.monthlyTransactionCount then 0.2 else 0)
            + (if 5 < mobileAnalysis.rechargeFrequency then 0.1 else 0)) 1 := by
  unfold calculateConfidenceLevel
  split_ifs <;> norm_num

/-- C9: code bug.  Increasing the SMS record count from 40 to 60 (all else
equal) does not raise the result's confidence by 0.2: the engine fails
outright on both payloads, and even at the confidence-computation stage both
runs see the default SMS summary (`totalTransactions = 0`), so the computed
confidence is identical. -/
theorem confidence_unchanged_from_40_to_60 :
    calculateAlternativeCreditScore (smsOnlyPayload 40)
        = .error "Failed to calculate credit score" ∧
    calculateAlternativeCreditScore (smsOnlyPayload 60)
        = .error "Failed to calculate credit score" ∧
    analyzeSMSTransactions (List.replicate 40 sampleSMSRecord) = getDefaultSMSAnalysis ∧
    analyzeSMSTransactions (List.replicate 60 sampleSMSRecord) = getDefaultSMSAnalysis ∧
    calculateConfidenceLevel (analyzeSMSTransactions (List.replicate 40 sampleSMSRecord))
        (analyzeUPITransactions []) (analyzeMobileUsage [])
      = calculateConfidenceLevel (analyzeSMSTransactions (List.replicate 60 sampleSMSRecord))
        (analyzeUPITransactions []) (analyzeMobileUsage []) :=
  ⟨rfl, rfl, rfl, rfl, rfl⟩

/-- C6: the recommendation generator realises exactly the score-keyed decision
table with lower-inclusive bounds: below 600 the applicant is ineligible with
the two low-score conditions; in [600, 650) the block is
(25000, 15000, 18.0, 12); in [650, 750) it is (50000, 25000, 15.0, 18); at
750 and above it is (100000, 50000, 12.0, 24). -/
theorem generateLoanRecommendation_table (score : ℤ) (risk : String) (flags : List RedFlag) :
    (score < 600 →
      (generateLoanRecommendation score risk flags).eligible = false ∧
      (generateLoanRecommendation score risk flags).conditions =
        ["Credit score too low for loan approval", "Consider building credit history"]) ∧
    (600 ≤ score → score < 650 →
      (generateLoanRecommendation score risk flags).eligible = true ∧
      (generateLoanRecommendation score risk flags).maxLoanAmount = 25000 ∧
      (generateLoanRecommendation score risk flags).recommendedAmount = 15000 ∧
      (generateLoanRecommendation score risk flags).suggestedInterestRate = 18.0 ∧
      (generateLoanRecommendation score risk flags).maxTenure = 12) ∧
    (650 ≤ score → score < 750 →
      (generateLoanRecommendation score risk flags).eligible = true ∧
      (generateLoanRecommendation score risk flags).maxLoanAmount = 50000 ∧
      (generateLoanRecommendation score risk flags).recommendedAmount = 25000 ∧
      (generateLoanRecommendation score risk flags).suggestedInterestRate = 15.0 ∧
      (generateLoanRecommendation score risk flags).maxTenure = 18) ∧
    (750 ≤ score →
      (generateLoanRecommendation score risk flags).eligible = true ∧
      (generateLoanRecommendation score risk flags).maxLoanAmount = 100000 ∧
      (generateLoanRecommendation score risk flags).recommendedAmount = 50000 ∧
      (generateLoanRecommendation score risk flags).suggestedInterestRate = 12.0 ∧
      (generateLoanRecommendation score risk flags).maxTenure = 24) := by
  unfold generateLoanRecommendation
  split_ifs <;> simp_all <;> omega

/-- C6 witness: the decision table instantiated at the concrete scores 550,
620, 700 and 750. -/
theorem generateLoanRecommendation_table_witness :
    ((550 : ℤ) < 600 ∧
      (generateLoanRecommendation 550 "high" []).eligible = false ∧
      (generateLoanRecommendation 550 "high" []).conditions =
        ["Credit score too low for loan approval", "Consider building credit history"]) ∧
    ((600 : ℤ) ≤ 620 ∧ (620 : ℤ) < 650 ∧
      (generateLoanRecommendation 620 "medium" []).maxLoanAmount = 25000) ∧
    ((650 : ℤ) ≤ 700 ∧ (700 : ℤ) < 750 ∧
      (generateLoanRecommendation 700 "medium" []).maxLoanAmount = 50000) ∧
    ((750 : ℤ) ≤ 750 ∧
      (generateLoanRecommendation 750 "low" []).maxLoanAmount = 100000 ∧
      (generateLoanRecommendation 750 "low" []).recommendedAmount = 50000 ∧
      (generateLoanRecommendation 750 "low" []).suggestedInterestRate = 12.0 ∧
      (generateLoanRecommendation 750 "low" []).maxTenure = 24) :=
  ⟨⟨by decide, (generateLoanRecommendation_table 550 "high" []).1 (by decide)⟩,
   ⟨by decide, by decide,
    ((generateLoanRecommendation_table 620 "medium" []).2.1 (by decide) (by decide)).2.1⟩,
   ⟨by decide, by decide,
    ((generateLoanRecommendation_table 700 "medium" []).2.2.1 (by decide) (by decide)).2.1⟩,
   ⟨by decide,
    (((generateLoanRecommendation_table 750 "low" []).2.2.2 (by decide)).2.1),
    (((generateLoanRecommendation_table 750 "low" []).2.2.2 (by decide)).2.2.1),
    (((generateLoanRecommendation_table 750 "low" []).2.2.2 (by decide)).2.2.2.1),
    (((generateLoanRecommendation_table 750 "low" []).2.2.2 (by decide)).2.2.2.2)⟩⟩

/-- C7 counterexample: at final score 550 (which is below 600) with one red
flag present and risk tier medium, neither "Additional verification required"
nor "Regular monitoring of repayment" is appended: the source appends them
only inside the eligible (score ≥ 600) branch, so the claim's "at every final
score, including scores below 600" fails here. -/
theorem loanRecommendation_conditions_counterexample :
    0 < [sampleRedFlag].length ∧
    (generateLoanRecommendation 550 "medium" [sampleRedFlag]).conditions =
      ["Credit score too low for loan approval", "Consider building credit history"] ∧
    "Additional verification required" ∉
      (generateLoanRecommendation 550 "medium" [sampleRedFlag]).conditions ∧
    "Regular monitoring of repayment" ∉
      (generateLoanRecommendation 550 "medium" [sampleRedFlag]).conditions := by
  decide

/-- C7 (amended): the extra conditions are appended only in the eligible
branch.  For every analysis with score at least 600, "Additional verification
required" is appended whenever at least one red flag exists and "Regular
monitoring of repayment" whenever the risk tier is medium; for score below
600 the conditions are exactly the two low-score messages, with no appends. -/
theorem loanRecommendation_conditions_amended (score : ℤ) (risk : String)
    (flags : List RedFlag) :
    (600 ≤ score → flags ≠ [] →
      "Additional verification required" ∈
        (generateLoanRecommendation score risk flags).conditions) ∧
    (600 ≤ score → risk = "medium" →
      "Regular monitoring of repayment" ∈
        (generateLoanRecommendation score risk flags).conditions) ∧
    (score < 600 →
      (generateLoanRecommendation score risk flags).conditions =
        ["Credit score too low for loan approval", "Consider building credit history"]) := by
  unfold generateLoanRecommendation
  split_ifs <;> simp_all

/-- C7 witness: the amended appending rules at score 700, risk medium, one
red flag. -/
theorem loanRecommendation_conditions_amended_witness :
    (600 ≤ (700 : ℤ)) ∧ ([sampleRedFlag] ≠ ([] : List RedFlag)) ∧ ("medium" = "medium") ∧
    "Additional verification required" ∈
      (generateLoanRecommendation 700 "medium" [sampleRedFlag]).conditions ∧
    "Regular monitoring of repayment" ∈
      (generateLoanRecommendation 700 "medium" [sampleRedFlag]).conditions :=
  ⟨by decide, by simp, rfl,
   (loanRecommendation_conditions_amended 700 "medium" [sampleRedFlag]).1 (by decide) (by simp),
   (loanRecommendation_conditions_amended 700 "medium" [sampleRedFlag]).2.1 (by decide) rfl⟩

/-- C4 counterexample: at component scores (100, 0, 0, 0, 0) — all within
[0, 100] — with the five fixed weights, the source's aggregation excludes the
zero-score components from BOTH sums (JS truthiness `score && weight`) and
returns 900, while the claim's all-five-components formula yields 450. -/
theorem calculateCreditScore_counterexample :
    calculateCreditScore (mkFixedComponents 100 0 0 0 0) = 900 ∧
    specAggregateScore (mkFixedComponents 100 0 0 0 0) = 450 ∧
    (900 : ℤ) ≠ 450 := by
  refine ⟨?_, ?_, by decide⟩ <;>
    norm_num [calculateCreditScore, specAggregateScore, componentList, mkFixedComponents,
      List.filter, jsRound]

/-- C4 (amended): with the five fixed weights, `calculateCreditScore` returns
`round(300 + 6 · (Σ scoreᵢ·weightᵢ / Σ weightᵢ))` where the sums range only
over the components whose score is NONZERO (a zero score drops the component
and its weight from both sums); when every score is zero it returns the scale
minimum 300.  This holds for all rational scores, in particular on [0, 100],
where the result needs no clamping. -/
theorem calculateCreditScore_truthy_filter (s1 s2 s3 s4 s5 : ℚ) :
    calculateCreditScore (mkFixedComponents s1 s2 s3 s4 s5) =
      if s1 = 0 ∧ s2 = 0 ∧ s3 = 0 ∧ s4 = 0 ∧ s5 = 0 then 300
      else jsRound (300 + 6 *
        (((if s1 = 0 then 0 else s1 * 0.25) + (if s2 = 0 then 0 else s2 * 0.20)
            + (if s3 = 0 then 0 else s3 * 0.20) + (if s4 = 0 then 0 else s4 * 0.25)
            + (if s5 = 0 then 0 else s5 * 0.10))
          / ((if s1 = 0 then (0 : ℚ) else 0.25) + (if s2 = 0 then 0 else 0.20)
            + (if s3 = 0 then 0 else 0.20) + (if s4 = 0 then 0 else 0.25)
            + (if s5 = 0 then 0 else 0.10)))) := by
  by_cases h1 : s1 = 0 <;> by_cases h2 : s2 = 0 <;> by_cases h3 : s3 = 0 <;>
    by_cases h4 : s4 = 0 <;> by_cases h5 : s5 = 0 <;>
    norm_num [calculateCreditScore, componentList, mkFixedComponents, List.filter,
      h1, h2, h3, h4, h5] <;>
    (congr 1; ring)

/-- The clamp identity behind the balance-stability formula: for a
nonnegative coefficient the source's `max(0, min(100, 100 - c·100))` equals
the spec's `100·(1 - min(1, c))`. -/
theorem clampAlgebra (c : ℝ) (hc : 0 ≤ c) :
    max 0 (min 100 (100 - c * 100)) = 100 * (1 - min 1 c) := by
  rcases le_total c 1 with h | h
  · rw [min_eq_right h, min_eq_right (by nlinarith), max_eq_right (by nlinarith)]; ring
  · rw [min_eq_left h, min_eq_right (by nlinarith), max_eq_left (by nlinarith)]; ring

/-- C10: on every list of balance readings (balance readings are nonnegative,
as the parser only produces nonnegative figures) with at least two entries,
`calculateBalanceStability` equals the spec's
`100·(1 − min(1, stdDev/mean))`; with fewer than two it returns the neutral
default 50; and the result always lies in [0, 100]. -/
theorem calculateBalanceStability_spec (l : List ℝ) (hnn : ∀ x ∈ l, 0 ≤ x) :
    (2 ≤ l.length → calculateBalanceStability l = specBalanceStability l) ∧
    (l.length < 2 → calculateBalanceStability l = 50) ∧
    0 ≤ calculateBalanceStability l ∧ calculateBalanceStability l ≤ 100 := by
  have hmean : 0 ≤ listMean l := div_nonneg (List.sum_nonneg hnn) (Nat.cast_nonneg _)
  have hc : 0 ≤ listStdDev l / listMean l := div_nonneg (Real.sqrt_nonneg _) hmean
  refine ⟨?_, ?_, ?_, ?_⟩
  · intro h2
    unfold calculateBalanceStability
    rw [if_neg (by omega)]
    show max 0 (min 100 (100 - listStdDev l / listMean l * 100)) = specBalanceStability l
    unfold specBalanceStability
    exact clampAlgebra _ hc
  · intro h2
    unfold calculateBalanceStability
    rw [if_pos h2]
  · unfold calculateBalanceStability
    split_ifs
    · norm_num
    · exact le_max_left 0 _
  · unfold calculateBalanceStability
    split_ifs
    · norm_num
    · exact max_le (by norm_num) (min_le_left 100 _)

/-- C10 witness: the balance-stability properties at the concrete reading
list [10, 20]. -/
theorem calculateBalanceStability_spec_witness :
    (∀ x ∈ ([10, 20] : List ℝ), 0 ≤ x) ∧
    ((2 ≤ ([10, 20] : List ℝ).length →
        calculateBalanceStability [10, 20] = specBalanceStability [10, 20]) ∧
      (([10, 20] : List ℝ).length < 2 → calculateBalanceStability [10, 20] = 50) ∧
      0 ≤ calculateBalanceStability [10, 20] ∧ calculateBalanceStability [10, 20] ≤ 100) :=
  ⟨by norm_num, calculateBalanceStability_spec [10, 20] (by norm_num)⟩

end GrameenCredit
